import Mathlib

/-!
Verification of the financial calculation engine in
`src/model/calculation_engine.py` (class `CalculationEngine`).

Embedding conventions:
* Python `Decimal` values are modelled as exact rationals (`ℚ`).  `Decimal`
  addition, subtraction and multiplication are exact; divisions and powers are
  rounded to 28 significant digits in Python, which we model exactly in `ℚ`
  (the difference is far below the 2-decimal quantization used throughout).
* `Decimal.quantize(Decimal("0.01"))` uses the context default rounding
  ROUND_HALF_EVEN; it is modelled by `quantize2`.
* Django model rows become structures; nullable fields become `Option`.
* Each scheduler method wraps its body in `try/except`; the only failure mode
  reachable from a stored scenario is a missing related assumption object,
  modelled by passing `none` for that input.  The `except` branch of each
  scheduler is the fallback value produced for that case.
* Period labels are the consecutive years `base_year + i`; series are indexed
  by the 0-based period index `i` (the code pairs index `i` with year label
  `str(base_year + i)` via `enumerate`).
-/

/-- ROUND_HALF_EVEN to an integer: nearest integer, ties to the even one. -/
def roundHalfEven (x : ℚ) : ℤ :=
  let f : ℤ := Int.floor x
  let r : ℚ := x - f
  if r < 1/2 then f
  else if 1/2 < r then f + 1
  else if f % 2 = 0 then f else f + 1

/-- Model of `Decimal.quantize(Decimal("0.01"))` with default rounding (half-even). -/
def quantize2 (q : ℚ) : ℚ := (roundHalfEven (q * 100) : ℚ) / 100

/-- Fields of `ProjectInformation` used by the engine (only the calendar years
of the two dates are ever read). -/
structure ProjectInformation where
  construction_start_year : ℤ
  operations_start_year : ℤ

/-- Fields of `MacroAssumptions` used by the engine. -/
structure MacroAssumptions where
  base_year : ℤ
  number_of_years : ℤ
  local_inflation_rate : ℚ

/-- Fields of `RevenueProduct` used by `_calculate_revenue`. -/
structure RevenueProduct where
  product_name : String
  year_1_sales_volume : Option ℚ
  unit_price_year_1 : Option ℚ
  volume_growth_rate : Option ℚ
  price_escalation_rate : Option ℚ
  revenue_rampup_months : Option ℤ
  seasonal_adjustment_factor : ℚ

/-- Fields of `OperatingExpenses` used by `_calculate_opex`. -/
structure OperatingExpenses where
  total_headcount : ℤ
  average_annual_salary : ℚ
  salary_escalation_rate : ℚ
  benefits_payroll_tax_pct : ℚ
  power_electricity_cost_annual : ℚ
  water_gas_utilities_annual : ℚ
  utilities_escalation_rate : ℚ
  administrative_expenses_annual : ℚ
  rent_facilities_annual : ℚ
  technology_software_annual : ℚ
  professional_fees_annual : ℚ
  insurance_annual : ℚ

/-- Fields of `CapitalExpenditure` used by the engine. -/
structure CapitalExpenditure where
  land_cost : ℚ
  construction_building_cost : ℚ
  equipment_machinery_cost : ℚ
  ffe_cost : ℚ
  carpark_cost : Option ℚ
  amenities_cost : Option ℚ
  contingency_pct : ℚ
  professional_fees_pct : ℚ
  permits_approvals_pct : ℚ
  vat_on_construction_pct : ℚ
  year_1_drawdown_pct : ℚ
  year_2_drawdown_pct : ℚ
  year_3_drawdown_pct : ℚ

/-- Fields of `DebtFinancing` used by `_calculate_debt`. -/
structure DebtFinancing where
  debt_percentage : ℚ
  base_rate_value : ℚ
  interest_margin_spread : ℚ
  loan_tenor_years : ℤ
  grace_period_months : ℤ
  repayment_type : String

/-- Fields of `TaxAssumptions` used by `_build_income_statement`. -/
structure TaxAssumptions where
  corporate_income_tax_rate : ℚ

/-- Fields of `DepreciationSchedule` used by `_calculate_depreciation`.
`asset_category` holds the display name returned by
`get_asset_category_display()`. -/
structure DepreciationSchedule where
  asset_category : String
  asset_value : ℚ
  useful_life_years : ℤ
  residual_value_pct : ℚ

/-- A scenario whose related assumption objects are all present (the generic
case for a fully configured scenario). -/
structure Scenario where
  projectInfo : ProjectInformation
  macroAssumptions : MacroAssumptions
  revenueProducts : List RevenueProduct
  operatingExpenses : OperatingExpenses
  capitalExpenditure : CapitalExpenditure
  debtFinancing : DebtFinancing
  taxAssumptions : TaxAssumptions
  depreciationSchedules : List DepreciationSchedule

/-- Model of `_generate_periods`: years `base_year + i` for `i < number_of_years`
(`range` of a non-positive count is empty).  Reading either related object can
raise, in which case the `except` branch returns the fixed fallback window
`2025..2034`. -/
def generatePeriods (om : Option MacroAssumptions) (op : Option ProjectInformation) : List ℤ :=
  match om, op with
  | some m, some _ => (List.range m.number_of_years.toNat).map (fun i => m.base_year + i)
  | _, _ => (List.range 10).map (fun i => (2025 : ℤ) + i)

/-- Python truthiness of the nullable integer field `revenue_rampup_months`:
`None` and `0` are falsy. -/
def rampupTruthy (o : Option ℤ) : Prop := o.getD 0 ≠ 0

instance (o : Option ℤ) : Decidable (rampupTruthy o) := by
  unfold rampupTruthy; infer_instance

/-- Body of the per-period revenue computation in `_calculate_revenue` for one
product at period index `i`. -/
def revenueAt (p : RevenueProduct) (i : ℕ) : ℚ :=
  let year_1_volume := p.year_1_sales_volume.getD 0
  let year_1_price := p.unit_price_year_1.getD 0
  let volume_growth := p.volume_growth_rate.getD 0
  let price_escalation := p.price_escalation_rate.getD 0
  let volume := year_1_volume * (1 + volume_growth / 100) ^ i
  let price := year_1_price * (1 + price_escalation / 100) ^ i
  let revenue := volume * price
  let revenue :=
    if rampupTruthy p.revenue_rampup_months ∧ i = 0 then
      revenue * min (1 : ℚ) ((p.revenue_rampup_months.getD 0 : ℚ) / 12)
    else revenue
  let revenue :=
    if p.seasonal_adjustment_factor ≠ 0 then revenue * p.seasonal_adjustment_factor
    else revenue
  quantize2 revenue

/-- Model of `_calculate_revenue`: one named series per product; the `except` branch
substitutes a single zero-valued `Total Revenue` series. -/
def calculateRevenue (ops : Option (List RevenueProduct)) : List (String × (ℕ → ℚ)) :=
  match ops with
  | some ps => ps.map (fun p => (p.product_name, fun i => revenueAt p i))
  | none => [("Total Revenue", fun _ => 0)]

/-- Staff-cost series of `_calculate_opex` at period index `i`. -/
def staffCostsAt (o : OperatingExpenses) (i : ℕ) : ℚ :=
  let base_staff_cost :=
    (o.total_headcount : ℚ) * o.average_annual_salary * (1 + o.benefits_payroll_tax_pct / 100)
  quantize2 (base_staff_cost * (1 + o.salary_escalation_rate / 100) ^ i)

/-- Utilities series of `_calculate_opex` at period index `i`. -/
def utilitiesAt (o : OperatingExpenses) (i : ℕ) : ℚ :=
  let base_utilities := o.power_electricity_cost_annual + o.water_gas_utilities_annual
  quantize2 (base_utilities * (1 + o.utilities_escalation_rate / 100) ^ i)

/-- Other-operating-expenses series of `_calculate_opex` at period index `i`
(escalated with the general inflation rate). -/
def otherOpexAt (o : OperatingExpenses) (m : MacroAssumptions) (i : ℕ) : ℚ :=
  let base_other :=
    o.administrative_expenses_annual + o.rent_facilities_annual +
      o.technology_software_annual + o.professional_fees_annual
  quantize2 (base_other * (1 + m.local_inflation_rate / 100) ^ i)

/-- Insurance series of `_calculate_opex` at period index `i`. -/
def insuranceAt (o : OperatingExpenses) (m : MacroAssumptions) (i : ℕ) : ℚ :=
  quantize2 (o.insurance_annual * (1 + m.local_inflation_rate / 100) ^ i)

/-- Model of `_calculate_opex`: both related objects are read before any line item is
inserted, so a failure there leaves the schedule empty — the `except` branch
returns the dictionary as built so far, i.e. `{}`. -/
def calculateOpex (oo : Option OperatingExpenses) (om : Option MacroAssumptions) :
    List (String × (ℕ → ℚ)) :=
  match oo, om with
  | some o, some m =>
      [("Staff Costs", staffCostsAt o),
       ("Utilities", utilitiesAt o),
       ("Other Operating Expenses", otherOpexAt o m),
       ("Insurance", insuranceAt o m)]
  | _, _ => []

/-- Per-category depreciation of `_calculate_depreciation` for calendar year
`year`:  zero for a zero useful life (land), and otherwise the straight-line
charge only from the operations-start year while within the useful life. -/
def depreciationAt (s : DepreciationSchedule) (ops_start_year : ℤ) (year : ℤ) : ℚ :=
  if s.useful_life_years = 0 then 0
  else
    let depreciable_base := s.asset_value * (1 - s.residual_value_pct / 100)
    let annual_depreciation := depreciable_base / (s.useful_life_years : ℚ)
    if ops_start_year ≤ year then
      if year - ops_start_year < s.useful_life_years then quantize2 annual_depreciation
      else 0
    else 0

/-- Model of `_calculate_depreciation`: both related inputs are read before the loop,
so a failure there returns the empty schedule. -/
def calculateDepreciation (os : Option (List DepreciationSchedule))
    (op : Option ProjectInformation) (base : ℤ) : List (String × (ℕ → ℚ)) :=
  match os, op with
  | some ss, some p =>
      ss.map (fun s =>
        (s.asset_category, fun i => depreciationAt s p.operations_start_year (base + i)))
  | _, _ => []

/-- Total hard costs in `_calculate_capex` (including the truthiness-guarded
real-estate add-ons). -/
def capexHardCosts (c : CapitalExpenditure) : ℚ :=
  let h := c.land_cost + c.construction_building_cost + c.equipment_machinery_cost + c.ffe_cost
  let h := if c.carpark_cost.getD 0 ≠ 0 then h + c.carpark_cost.getD 0 else h
  if c.amenities_cost.getD 0 ≠ 0 then h + c.amenities_cost.getD 0 else h

/-- Total CAPEX in `_calculate_capex` (hard costs plus the four soft-cost
percentages of hard costs). -/
def capexTotal (c : CapitalExpenditure) : ℚ :=
  let hard := capexHardCosts c
  hard + hard * c.contingency_pct / 100 + hard * c.professional_fees_pct / 100 +
    hard * c.permits_approvals_pct / 100 + hard * c.vat_on_construction_pct / 100

/-- Per-year CAPEX of `_calculate_capex`: the three drawdown percentages over
the first three construction years, zero afterwards (the replacement branch is
a stubbed zero). -/
def capexAt (c : CapitalExpenditure) (construction_start_year : ℤ) (year : ℤ) : ℚ :=
  if year - construction_start_year = 0 then quantize2 (capexTotal c * c.year_1_drawdown_pct / 100)
  else if year - construction_start_year = 1 then quantize2 (capexTotal c * c.year_2_drawdown_pct / 100)
  else if year - construction_start_year = 2 then quantize2 (capexTotal c * c.year_3_drawdown_pct / 100)
  else 0

/-- Model of `_calculate_capex`: the `except` branch substitutes an all-zero series. -/
def calculateCapex (oc : Option CapitalExpenditure) (op : Option ProjectInformation)
    (base : ℤ) : ℕ → ℚ :=
  match oc, op with
  | some c, some p => fun i => capexAt c p.construction_start_year (base + i)
  | _, _ => fun _ => 0

/-- Model of `_calculate_pmt`: the standard annuity payment formula, `pv / nper` at a
zero rate. -/
def calculatePmt (pv : ℚ) (rate : ℚ) (nper : ℤ) : ℚ :=
  if rate = 0 then pv / (nper : ℚ)
  else
    let factor := (1 + rate) ^ nper
    pv * (rate * factor) / (factor - 1)

/-- Total project cost as computed inside `_calculate_debt` (it omits the
carpark/amenities add-ons that `_calculate_capex` includes). -/
def debtTotalCapex (c : CapitalExpenditure) : ℚ :=
  let total_hard_costs :=
    c.land_cost + c.construction_building_cost + c.equipment_machinery_cost + c.ffe_cost
  total_hard_costs *
    (1 + (c.contingency_pct + c.professional_fees_pct + c.permits_approvals_pct +
      c.vat_on_construction_pct) / 100)

/-- Total debt principal in `_calculate_debt`. -/
def debtTotal (d : DebtFinancing) (c : CapitalExpenditure) : ℚ :=
  debtTotalCapex c * d.debt_percentage / 100

/-- All-in interest rate in `_calculate_debt`. -/
def allInRate (d : DebtFinancing) : ℚ := (d.base_rate_value + d.interest_margin_spread) / 100

/-- First repayment year in `_calculate_debt`
(`ops_start_year + int(grace_period_months / 12)`). -/
def repaymentStartYear (d : DebtFinancing) (p : ProjectInformation) : ℤ :=
  p.operations_start_year + d.grace_period_months / 12

/-- Drawdown in `_calculate_debt` for calendar year `year`. -/
def debtDrawdownAt (d : DebtFinancing) (c : CapitalExpenditure) (p : ProjectInformation)
    (year : ℤ) : ℚ :=
  if year = p.construction_start_year then debtTotal d c * c.year_1_drawdown_pct / 100
  else if year = p.construction_start_year + 1 then debtTotal d c * c.year_2_drawdown_pct / 100
  else if year = p.construction_start_year + 2 then debtTotal d c * c.year_3_drawdown_pct / 100
  else 0

/-- One loop iteration of `_calculate_debt` given the running (unquantized)
closing balance `prev`: the raw drawdown, interest, principal repayment and
new closing balance for period index `i`.  The quantized copies stored in the
schedule are taken afterwards; the running balance itself stays unquantized. -/
def debtRowRaw (d : DebtFinancing) (c : CapitalExpenditure) (p : ProjectInformation)
    (base : ℤ) (prev : ℚ) (i : ℕ) : ℚ × ℚ × ℚ × ℚ :=
  let year : ℤ := base + i
  let drawdown := debtDrawdownAt d c p year
  let interest := (prev + drawdown / 2) * allInRate d
  let principal :=
    if repaymentStartYear d p ≤ year ∧ d.repayment_type = "Amortizing" then
      let periods_remaining := d.loan_tenor_years - (year - repaymentStartYear d p)
      if 0 < periods_remaining then
        max 0 (calculatePmt (prev + drawdown) (allInRate d) periods_remaining - interest)
      else prev + drawdown
    else 0
  (drawdown, interest, principal, prev + drawdown - principal)

/-- Running closing balance of `_calculate_debt` before period index `i`
(the opening balance of period `i`). -/
def debtOpening (d : DebtFinancing) (c : CapitalExpenditure) (p : ProjectInformation)
    (base : ℤ) : ℕ → ℚ
  | 0 => 0
  | i + 1 => (debtRowRaw d c p base (debtOpening d c p base i) i).2.2.2

/-- The debt schedule as stored: `Opening Balance` and `Drawdowns` raw,
`Interest Expense`, `Principal Repayment` and `Closing Balance` quantized. -/
structure DebtSchedule where
  openingBalance : ℕ → ℚ
  drawdowns : ℕ → ℚ
  principalRepayment : ℕ → ℚ
  interestExpense : ℕ → ℚ
  closingBalance : ℕ → ℚ

/-- The all-zero debt schedule of the `except` branch of `_calculate_debt`. -/
def zeroDebtSchedule : DebtSchedule :=
  ⟨fun _ => 0, fun _ => 0, fun _ => 0, fun _ => 0, fun _ => 0⟩

/-- Model of `_calculate_debt`: build the five named series; the `except` branch
substitutes all-zero series. -/
def calculateDebt (od : Option DebtFinancing) (oc : Option CapitalExpenditure)
    (op : Option ProjectInformation) (base : ℤ) : DebtSchedule :=
  match od, oc, op with
  | some d, some c, some p =>
      { openingBalance := fun i => debtOpening d c p base i
        drawdowns := fun i => (debtRowRaw d c p base (debtOpening d c p base i) i).1
        principalRepayment := fun i =>
          quantize2 (debtRowRaw d c p base (debtOpening d c p base i) i).2.2.1
        interestExpense := fun i =>
          quantize2 (debtRowRaw d c p base (debtOpening d c p base i) i).2.1
        closingBalance := fun i =>
          quantize2 (debtRowRaw d c p base (debtOpening d c p base i) i).2.2.2 }
  | _, _, _ => zeroDebtSchedule

/-- Base year of a scenario. -/
def baseYear (sc : Scenario) : ℤ := sc.macroAssumptions.base_year

/-- Number of periods of a scenario (`_generate_periods` on present inputs). -/
def numPeriods (sc : Scenario) : ℕ :=
  (generatePeriods (some sc.macroAssumptions) (some sc.projectInfo)).length

/-- Scenario-level revenue schedule. -/
def scRevenueSched (sc : Scenario) : List (String × (ℕ → ℚ)) :=
  calculateRevenue (some sc.revenueProducts)

/-- Scenario-level opex schedule. -/
def scOpexSched (sc : Scenario) : List (String × (ℕ → ℚ)) :=
  calculateOpex (some sc.operatingExpenses) (some sc.macroAssumptions)

/-- Scenario-level depreciation schedule. -/
def scDepSched (sc : Scenario) : List (String × (ℕ → ℚ)) :=
  calculateDepreciation (some sc.depreciationSchedules) (some sc.projectInfo) (baseYear sc)

/-- Scenario-level CAPEX series. -/
def scCapex (sc : Scenario) : ℕ → ℚ :=
  calculateCapex (some sc.capitalExpenditure) (some sc.projectInfo) (baseYear sc)

/-- Scenario-level debt schedule. -/
def scDebtSched (sc : Scenario) : DebtSchedule :=
  calculateDebt (some sc.debtFinancing) (some sc.capitalExpenditure) (some sc.projectInfo)
    (baseYear sc)

/-- The `Total Revenue` line of `_build_income_statement`: sum over the product
series at each period. -/
def totalRevenueAt (sc : Scenario) (i : ℕ) : ℚ :=
  ((scRevenueSched sc).map (fun x => x.2 i)).sum

/-- The `Total Operating Expenses` line of `_build_income_statement`. -/
def totalOpexAt (sc : Scenario) (i : ℕ) : ℚ :=
  ((scOpexSched sc).map (fun x => x.2 i)).sum

/-- The `Depreciation` line of `_build_income_statement`. -/
def totalDepreciationAt (sc : Scenario) (i : ℕ) : ℚ :=
  ((scDepSched sc).map (fun x => x.2 i)).sum

/-- The `EBITDA` line of `_build_income_statement`. -/
def ebitdaAt (sc : Scenario) (i : ℕ) : ℚ := totalRevenueAt sc i - totalOpexAt sc i

/-- The `EBIT` line of `_build_income_statement`. -/
def ebitAt (sc : Scenario) (i : ℕ) : ℚ := ebitdaAt sc i - totalDepreciationAt sc i

/-- The `EBT` line of `_build_income_statement`. -/
def ebtAt (sc : Scenario) (i : ℕ) : ℚ := ebitAt sc i - (scDebtSched sc).interestExpense i

/-- The `Tax Expense` line of `_build_income_statement` (zero when EBT is not
positive). -/
def taxExpenseAt (sc : Scenario) (i : ℕ) : ℚ :=
  if 0 < ebtAt sc i then
    quantize2 (ebtAt sc i * sc.taxAssumptions.corporate_income_tax_rate / 100)
  else 0

/-- The `Net Income` line of `_build_income_statement`. -/
def netIncomeAt (sc : Scenario) (i : ℕ) : ℚ := ebtAt sc i - taxExpenseAt sc i

/-- The `Cash Flow from Operations` line in `_build_cash_flow_statement`
(working-capital changes are fixed at zero). -/
def cfoAt (sc : Scenario) (i : ℕ) : ℚ := netIncomeAt sc i + totalDepreciationAt sc i - 0

/-- The `Cash Flow from Financing` line in `_build_cash_flow_statement`. -/
def cffAt (sc : Scenario) (i : ℕ) : ℚ :=
  (scDebtSched sc).drawdowns i + (-(scDebtSched sc).principalRepayment i) +
    (-(scDebtSched sc).interestExpense i)

/-- The `Net Cash Flow` line in `_build_cash_flow_statement`. -/
def netCashFlowAt (sc : Scenario) (i : ℕ) : ℚ :=
  cfoAt sc i + (-(scCapex sc i)) + cffAt sc i

/-- The `Cash Balance (End)` line in `_build_cash_flow_statement`: running sum of the
net cash flow over the period sequence. -/
def cashEndAt (sc : Scenario) (k : ℕ) : ℚ :=
  ∑ i ∈ Finset.range (k + 1), netCashFlowAt sc i

/-- The `Net Fixed Assets` line in `_build_balance_sheet`: accumulated CAPEX minus
accumulated depreciation. -/
def netFixedAssetsAt (sc : Scenario) (k : ℕ) : ℚ :=
  (∑ i ∈ Finset.range (k + 1), scCapex sc i) -
    ∑ i ∈ Finset.range (k + 1), totalDepreciationAt sc i

/-- The `Total Assets` line in `_build_balance_sheet`. -/
def totalAssetsAt (sc : Scenario) (k : ℕ) : ℚ := cashEndAt sc k + netFixedAssetsAt sc k

/-- The `Total Liabilities` line in `_build_balance_sheet` (the debt closing
balance). -/
def totalLiabilitiesAt (sc : Scenario) (k : ℕ) : ℚ := (scDebtSched sc).closingBalance k

/-- The `Retained Earnings` and `Total Equity` lines in `_build_balance_sheet`:
cumulative net income. -/
def totalEquityAt (sc : Scenario) (k : ℕ) : ℚ :=
  ∑ i ∈ Finset.range (k + 1), netIncomeAt sc i

/-- The `Balance Check (should be 0)` line of `_build_balance_sheet`. -/
def balanceCheckAt (sc : Scenario) (k : ℕ) : ℚ :=
  totalAssetsAt sc k - (totalLiabilitiesAt sc k + totalEquityAt sc k)

/-- The balance-sheet line items persisted by `_save_results`, in insertion
order. -/
def balanceSheetItems (sc : Scenario) : List (String × (ℕ → ℚ)) :=
  [("Cash", cashEndAt sc),
   ("Net Fixed Assets", netFixedAssetsAt sc),
   ("Total Assets", totalAssetsAt sc),
   ("Debt", (scDebtSched sc).closingBalance),
   ("Total Liabilities", totalLiabilitiesAt sc),
   ("Retained Earnings", totalEquityAt sc),
   ("Total Equity", totalEquityAt sc),
   ("Balance Check (should be 0)", balanceCheckAt sc)]

/-- Result of `calculate_scenario`: final log status, number of periods, and
the persisted balance-sheet series. -/
structure RunResult where
  status : String
  periodsCalculated : ℕ
  persistedBalanceSheet : List (String × (ℕ → ℚ))

/-- Model of `calculate_scenario` on a fully configured scenario: every stage either
succeeds or swallows its own exception, no stage re-raises, so the log is
always marked `success` and all computed series are persisted. -/
def calculateScenario (sc : Scenario) : RunResult :=
  { status := "success"
    periodsCalculated := numPeriods sc
    persistedBalanceSheet := balanceSheetItems sc }

/-! ## Concrete instances used by the claims -/

/-- Project with construction and operations both starting in 2025. -/
def projInfo0 : ProjectInformation := ⟨2025, 2025⟩

/-- Macro assumptions: base year 2025, five periods, zero inflation. -/
def macro0 : MacroAssumptions := ⟨2025, 5, 0⟩

/-- Macro assumptions with a non-positive period count. -/
def macroZero : MacroAssumptions := ⟨2025, 0, 0⟩

/-- Operating expenses with all amounts and rates zero. -/
def opex0 : OperatingExpenses := ⟨0, 0, 0, 0, 0, 0, 0, 0, 0, 0, 0, 0⟩

/-- CAPEX of 1000 (land only), no soft costs, fully drawn in year 1. -/
def capex0 : CapitalExpenditure := ⟨1000, 0, 0, 0, none, none, 0, 0, 0, 0, 100, 0, 0⟩

/-- Amortizing loan: 100% debt funding of the 1000 CAPEX, 10% flat all-in
rate, tenor 5 years, no grace period. -/
def debt0 : DebtFinancing := ⟨100, 10, 0, 5, 0, "Amortizing"⟩

/-- Same loan terms but 0% debt funding (an identically zero schedule). -/
def debtZero : DebtFinancing := ⟨0, 10, 0, 5, 0, "Amortizing"⟩

/-- A 0% corporate tax rate. -/
def tax0 : TaxAssumptions := ⟨0⟩

/-- Scenario with the 1000 loan of `debt0` and no revenue, opex or
depreciation: the single drawdown of 1000 at a 10% flat rate. -/
def sc1 : Scenario := ⟨projInfo0, macro0, [], opex0, capex0, debt0, tax0, []⟩

/-- Scenario whose configured period count is 0. -/
def sc7 : Scenario := ⟨projInfo0, macroZero, [], opex0, capex0, debt0, tax0, []⟩

/-- Scenario with a 0% debt share, hence an identically zero debt
schedule. -/
def sc10 : Scenario := ⟨projInfo0, macro0, [], opex0, capex0, debtZero, tax0, []⟩

/-- Asset of 100 with a 2-year useful life and no residual value. -/
def dep8 : DepreciationSchedule := ⟨"equipment", 100, 2, 0⟩

/-- Asset of 0.05 with a 3-year useful life and no residual value. -/
def dep5 : DepreciationSchedule := ⟨"equipment", 1/20, 3, 0⟩

/-- A product with constant volume 1000 and price 100 (all rates zero). -/
def prod8 : RevenueProduct := ⟨"Widget", some 1000, some 100, some 0, some 0, none, 1⟩

/-- The revenue formula exactly as the specification words it: base revenue
`volume_1 * (1 + volume_growth/100)^i * price_1 * (1 + price_escalation/100)^i`,
multiplied by `min(1, rampup_months/12)` exactly when a ramp-up duration is
set (truthy) and `i = 0`, multiplied by the seasonal adjustment factor
whenever one is set (truthy), and quantized to 2 decimal places last. -/
def revenueSpecAt (p : RevenueProduct) (i : ℕ) : ℚ :=
  let base := p.year_1_sales_volume.getD 0 * (1 + p.volume_growth_rate.getD 0 / 100) ^ i *
    (p.unit_price_year_1.getD 0) * (1 + p.price_escalation_rate.getD 0 / 100) ^ i
  let withRamp :=
    if rampupTruthy p.revenue_rampup_months ∧ i = 0 then
      base * min (1 : ℚ) ((p.revenue_rampup_months.getD 0 : ℚ) / 12)
    else base
  let withSeasonal :=
    if p.seasonal_adjustment_factor ≠ 0 then withRamp * p.seasonal_adjustment_factor
    else withRamp
  quantize2 withSeasonal

/-- Cumulative depreciation of one asset category over the first `n` period
indices (years `base ..  base + n - 1`), as charged by
`_calculate_depreciation`. -/
def cumulativeDepreciation (s : DepreciationSchedule) (ops_start base : ℤ) (n : ℕ) : ℚ :=
  ∑ i ∈ Finset.range n, depreciationAt s ops_start (base + i)

/-! ## Helper lemmas -/

theorem roundHalfEven_le_add_half (x : ℚ) : (roundHalfEven x : ℚ) ≤ x + 1/2 := by
  unfold roundHalfEven
  have hfl : ((Int.floor x : ℤ) : ℚ) ≤ x := Int.floor_le x
  dsimp only
  split_ifs with h1 h2 h3
  · linarith
  · push_cast
    have : (1:ℚ)/2 ≤ x - (Int.floor x : ℤ) := le_of_lt h2
    linarith
  · linarith
  · push_cast
    have hr : x - (Int.floor x : ℤ) = 1/2 := le_antisymm (not_lt.mp h2) (not_lt.mp h1)
    linarith

theorem roundHalfEven_nonneg (x : ℚ) (hx : 0 ≤ x) : 0 ≤ roundHalfEven x := by
  unfold roundHalfEven
  have hfl : 0 ≤ Int.floor x := Int.floor_nonneg.mpr hx
  dsimp only
  split_ifs <;> omega

theorem quantize2_le_add (q : ℚ) : quantize2 q ≤ q + 1/200 := by
  unfold quantize2
  have h : (roundHalfEven (q * 100) : ℚ) ≤ q * 100 + 1/2 := roundHalfEven_le_add_half (q * 100)
  calc (roundHalfEven (q * 100) : ℚ) / 100 ≤ (q * 100 + 1/2) / 100 := by gcongr
    _ = q + 1/200 := by ring

theorem quantize2_nonneg (q : ℚ) (hq : 0 ≤ q) : 0 ≤ quantize2 q := by
  unfold quantize2
  have h : 0 ≤ roundHalfEven (q * 100) := roundHalfEven_nonneg _ (by positivity)
  positivity


/-! ## C4: PMT correctness -/

/-- C4: for every present value and every `n ≥ 1`, `PMT(pv, 0, n) = pv / n`
exactly; and for every rate `r > 0`, the discounted PMT payments over periods
`1..n` sum exactly to `pv` (exactness is stronger than the claimed rounding
tolerance). -/
theorem calculatePmt_correct (pv r : ℚ) (n : ℕ) (hn : 1 ≤ n) (hr : 0 < r) :
    calculatePmt pv 0 (n : ℤ) = pv / (n : ℚ) ∧
    ∑ i ∈ Finset.range n, calculatePmt pv r (n : ℤ) / (1 + r) ^ (i + 1) = pv := by
  constructor
  · unfold calculatePmt
    rw [if_pos rfl]
    norm_num
  · have hx : (0:ℚ) < 1 + r := by linarith
    have hx0 : (1 + r) ≠ 0 := ne_of_gt hx
    have hx1 : (1 + r) ≠ 1 := by intro h; exact hr.ne' (by linarith)
    have hpow : (1:ℚ) < (1 + r) ^ n := one_lt_pow₀ (by linarith) (by omega)
    have hpne : ((1 + r) ^ n) ≠ 0 := pow_ne_zero _ hx0
    have hfne : ((1 + r) ^ n - 1) ≠ 0 := sub_ne_zero.mpr (ne_of_gt hpow)
    have hxinv1 : (1 + r)⁻¹ ≠ 1 := by
      simp only [ne_eq, inv_eq_one]; exact hx1
    have hstep : ∀ i ∈ Finset.range n,
        calculatePmt pv r (n : ℤ) / (1 + r) ^ (i + 1) =
          (pv * (r * (1 + r) ^ n) / ((1 + r) ^ n - 1)) * ((1 + r)⁻¹) ^ (i + 1) := by
      intro i _
      unfold calculatePmt
      rw [if_neg hr.ne', inv_pow, div_eq_mul_inv]
      dsimp only
      rw [zpow_natCast]
    rw [Finset.sum_congr rfl hstep, ← Finset.mul_sum]
    have hgeom : ∑ i ∈ Finset.range n, ((1 + r)⁻¹) ^ (i + 1) =
        (1 + r)⁻¹ * ∑ i ∈ Finset.range n, ((1 + r)⁻¹) ^ i := by
      rw [Finset.mul_sum]
      exact Finset.sum_congr rfl (fun i _ => by rw [pow_succ]; ring)
    rw [hgeom, geom_sum_eq hxinv1, inv_pow]
    have hinvne : (1 + r)⁻¹ - 1 ≠ 0 := sub_ne_zero.mpr hxinv1
    field_simp
    ring

/-- C4 witness: the theorem instantiated at `pv = 100`, `r = 1/10`,
`n = 3`. -/
theorem calculatePmt_correct_witness :
    ((1:ℕ) ≤ 3 ∧ (0:ℚ) < 1/10) ∧
      (calculatePmt 100 0 ((3:ℕ) : ℤ) = 100 / ((3:ℕ) : ℚ) ∧
        ∑ i ∈ Finset.range 3, calculatePmt 100 (1/10) ((3:ℕ) : ℤ) / (1 + 1/10) ^ (i + 1) = 100) :=
  ⟨⟨by norm_num, by norm_num⟩, calculatePmt_correct 100 (1/10) 3 (by norm_num) (by norm_num)⟩

/-! ## C6: the revenue formula -/

/-- C6: for every revenue product and 0-based period index `i`, the scheduled
revenue of `_calculate_revenue` equals the specified formula: compounded
volume times compounded price, multiplied by `min(1, rampup_months/12)`
exactly when a ramp-up duration is set (truthy) and `i = 0`, multiplied by
the seasonal adjustment factor whenever one is set (truthy), and quantized to
2 decimal places as the final step. -/
theorem revenueAt_matches_spec (p : RevenueProduct) (i : ℕ) :
    revenueAt p i = revenueSpecAt p i := by
  unfold revenueAt revenueSpecAt
  dsimp only
  congr 1
  split_ifs <;> ring

/-! ## C7: period generation -/

/-- C7 counterexample: on a scenario whose configured period count is `0`
(non-positive), `_generate_periods` raises nothing — it returns the empty
period list and the whole run completes with status `success` and zero
periods; no `ConfigurationError` exists in the code. -/
theorem periods_nonpositive_no_error :
    (calculateScenario sc7).status = "success" ∧
      (calculateScenario sc7).periodsCalculated = 0 ∧
      generatePeriods (some sc7.macroAssumptions) (some sc7.projectInfo) = [] := by
  refine ⟨rfl, ?_, rfl⟩
  rfl

/-- C7 amended: a non-positive period count yields an empty period sequence
(no error is raised); a derivation error (a missing related assumptions
object) makes `_generate_periods` substitute the fixed fallback window of ten
years starting at 2025, logging the cause. -/
theorem generatePeriods_fallback_and_empty :
    generatePeriods none none = (List.range 10).map (fun i => (2025 : ℤ) + i) ∧
      ∀ (m : MacroAssumptions) (p : ProjectInformation), m.number_of_years ≤ 0 →
        generatePeriods (some m) (some p) = [] := by
  refine ⟨rfl, fun m p h => ?_⟩
  simp [generatePeriods, Int.toNat_of_nonpos h]

/-- C7 witness: the amended theorem applied to a macro block with period
count `0`. -/
theorem generatePeriods_fallback_and_empty_witness :
    macroZero.number_of_years ≤ 0 ∧
      generatePeriods (some macroZero) (some projInfo0) = [] :=
  ⟨by norm_num [macroZero],
    generatePeriods_fallback_and_empty.2 macroZero projInfo0 (by norm_num [macroZero])⟩

/-! ## C9: leaf-scheduler failure behavior -/

/-- C9 counterexample: on an internal failure (the related object read
raising), `_calculate_opex` returns the empty schedule — not a zero-valued
series for each of its line items: the line items it normally emits
(for example `Staff Costs`) are absent entirely. -/
theorem opex_failure_loses_line_items :
    calculateOpex none none = [] ∧
      (calculateOpex (some opex0) (some macro0)).map Prod.fst =
        ["Staff Costs", "Utilities", "Other Operating Expenses", "Insurance"] :=
  ⟨rfl, rfl⟩

/-- C9 amended: on internal failure, the revenue, CAPEX and debt schedulers
substitute zero-valued fallbacks (revenue: a single zero `Total Revenue`
series; CAPEX: an all-zero series; debt: all five series zero), while the
opex and depreciation schedulers return the partial schedule built before
the failure — empty when the failure is at the initial attribute access —
logging the cause in every case. -/
theorem scheduler_failure_fallbacks (base : ℤ) :
    calculateRevenue none = [("Total Revenue", fun _ => 0)] ∧
      calculateOpex none none = [] ∧
      calculateDepreciation none none base = [] ∧
      calculateCapex none none base = (fun _ => 0) ∧
      calculateDebt none none none base = zeroDebtSchedule :=
  ⟨rfl, rfl, rfl, rfl, rfl⟩

/-! ## The balance-sheet identity and C10 -/

theorem quantize2_zero : quantize2 0 = 0 := by
  norm_num [quantize2, roundHalfEven]

/-- Algebraic content of `_build_balance_sheet`: the stored balance check for
period `k` equals the cumulative financing leakage
`Σ (drawdowns − stored principal − stored interest)` minus the stored closing
balance (everything else cancels between cash, fixed assets and equity). -/
theorem balanceCheck_eq_debt (sc : Scenario) (k : ℕ) :
    balanceCheckAt sc k =
      (∑ i ∈ Finset.range (k + 1),
        ((scDebtSched sc).drawdowns i - (scDebtSched sc).principalRepayment i -
          (scDebtSched sc).interestExpense i)) - (scDebtSched sc).closingBalance k := by
  have h : ∀ i, netCashFlowAt sc i =
      (netIncomeAt sc i + totalDepreciationAt sc i - scCapex sc i) +
        ((scDebtSched sc).drawdowns i - (scDebtSched sc).principalRepayment i -
          (scDebtSched sc).interestExpense i) := by
    intro i
    unfold netCashFlowAt cfoAt cffAt
    ring
  unfold balanceCheckAt totalAssetsAt cashEndAt netFixedAssetsAt totalLiabilitiesAt totalEquityAt
  rw [Finset.sum_congr rfl (fun i _ => h i), Finset.sum_add_distrib, Finset.sum_sub_distrib,
    Finset.sum_add_distrib]
  ring

/-- On a 0%-debt scenario every raw row of `_calculate_debt` is zero. -/
theorem sc10_row0 (prev : ℚ) (i : ℕ) (hprev : prev = 0) :
    debtRowRaw debtZero capex0 projInfo0 2025 prev i = (0, 0, 0, 0) := by
  subst hprev
  unfold debtRowRaw debtDrawdownAt debtTotal debtTotalCapex allInRate repaymentStartYear
    calculatePmt
  norm_num [debtZero, capex0, projInfo0]

/-- On a 0%-debt scenario the running balance of `_calculate_debt` stays
zero. -/
theorem sc10_opening (i : ℕ) : debtOpening debtZero capex0 projInfo0 2025 i = 0 := by
  induction i with
  | zero => rfl
  | succ n ih =>
      simp only [debtOpening]
      rw [sc10_row0 _ n ih]

/-- The four stored debt series of `sc10` are identically zero. -/
theorem sc10_debt_zero (i : ℕ) :
    (scDebtSched sc10).drawdowns i = 0 ∧ (scDebtSched sc10).interestExpense i = 0 ∧
      (scDebtSched sc10).principalRepayment i = 0 ∧
      (scDebtSched sc10).closingBalance i = 0 := by
  have h : scDebtSched sc10 = calculateDebt (some debtZero) (some capex0) (some projInfo0) 2025 :=
    rfl
  rw [h]
  simp only [calculateDebt]
  rw [sc10_row0 _ i (sc10_opening i)]
  norm_num [quantize2_zero]

/-- C10: for every scenario whose stored debt schedule is identically zero on
its period range (zero drawdowns, interest expense, principal repayment and
closing balance), the `Balance Check (should be 0)` line is exactly `0` at
every period — no tolerance needed. -/
theorem balanceCheck_zero_of_zero_debt (sc : Scenario)
    (hd : ∀ i < numPeriods sc, (scDebtSched sc).drawdowns i = 0)
    (hi : ∀ i < numPeriods sc, (scDebtSched sc).interestExpense i = 0)
    (hp : ∀ i < numPeriods sc, (scDebtSched sc).principalRepayment i = 0)
    (hc : ∀ i < numPeriods sc, (scDebtSched sc).closingBalance i = 0) :
    ∀ k < numPeriods sc, balanceCheckAt sc k = 0 := by
  intro k hk
  rw [balanceCheck_eq_debt, hc k hk]
  have hz : ∀ i ∈ Finset.range (k + 1),
      (scDebtSched sc).drawdowns i - (scDebtSched sc).principalRepayment i -
        (scDebtSched sc).interestExpense i = 0 := by
    intro i hmem
    have hlt : i < numPeriods sc := by
      have := Finset.mem_range.mp hmem
      omega
    rw [hd i hlt, hp i hlt, hi i hlt]
    ring
  rw [Finset.sum_congr rfl hz, Finset.sum_const_zero]
  ring

/-- C10 witness: the zero-debt scenario `sc10` has balance check exactly `0`
in its first and last period. -/
theorem balanceCheck_zero_of_zero_debt_witness :
    balanceCheckAt sc10 0 = 0 ∧ balanceCheckAt sc10 4 = 0 := by
  have hn : numPeriods sc10 = 5 := rfl
  refine ⟨?_, ?_⟩
  · exact balanceCheck_zero_of_zero_debt sc10 (fun i _ => (sc10_debt_zero i).1)
      (fun i _ => (sc10_debt_zero i).2.1) (fun i _ => (sc10_debt_zero i).2.2.1)
      (fun i _ => (sc10_debt_zero i).2.2.2) 0 (by omega)
  · exact balanceCheck_zero_of_zero_debt sc10 (fun i _ => (sc10_debt_zero i).1)
      (fun i _ => (sc10_debt_zero i).2.1) (fun i _ => (sc10_debt_zero i).2.2.1)
      (fun i _ => (sc10_debt_zero i).2.2.2) 4 (by omega)

/-! ## The `sc1` debt schedule, period by period -/

theorem sc1_row0 :
    debtRowRaw debt0 capex0 projInfo0 2025 0 0 =
      (1000, 50, 13052550/61051, 47998450/61051) := by
  unfold debtRowRaw debtDrawdownAt debtTotal debtTotalCapex allInRate repaymentStartYear
    calculatePmt
  norm_num [debt0, capex0, projInfo0, max_def]

theorem sc1_open1 :
    debtOpening debt0 capex0 projInfo0 2025 1 = 47998450/61051 := by
  rw [show (1:ℕ) = 0 + 1 from rfl]
  simp only [debtOpening]
  rw [sc1_row0]

theorem sc1_open2 :
    debtOpening debt0 capex0 projInfo0 2025 2 = 174762356450/283337691 := by
  have hstep : debtOpening debt0 capex0 projInfo0 2025 2 =
      (debtRowRaw debt0 capex0 projInfo0 2025 (debtOpening debt0 capex0 projInfo0 2025 1)
        1).2.2.2 := rfl
  rw [hstep, sc1_open1]
  unfold debtRowRaw debtDrawdownAt debtTotal debtTotalCapex allInRate repaymentStartYear
    calculatePmt
  norm_num [debt0, capex0, projInfo0, max_def]

theorem sc1_open3 :
    debtOpening debt0 capex0 projInfo0 2025 3 = 5807812450/13492271 := by
  have hstep : debtOpening debt0 capex0 projInfo0 2025 3 =
      (debtRowRaw debt0 capex0 projInfo0 2025 (debtOpening debt0 capex0 projInfo0 2025 2)
        2).2.2.2 := rfl
  rw [hstep, sc1_open2]
  unfold debtRowRaw debtDrawdownAt debtTotal debtTotalCapex allInRate repaymentStartYear
    calculatePmt
  norm_num [debt0, capex0, projInfo0, max_def]

theorem sc1_open4 :
    debtOpening debt0 capex0 projInfo0 2025 4 = 63885936950/283337691 := by
  have hstep : debtOpening debt0 capex0 projInfo0 2025 4 =
      (debtRowRaw debt0 capex0 projInfo0 2025 (debtOpening debt0 capex0 projInfo0 2025 3)
        3).2.2.2 := rfl
  rw [hstep, sc1_open3]
  unfold debtRowRaw debtDrawdownAt debtTotal debtTotalCapex allInRate repaymentStartYear
    calculatePmt
  norm_num [debt0, capex0, projInfo0, max_def]

theorem sc1_open5 :
    debtOpening debt0 capex0 projInfo0 2025 5 = 0 := by
  have hstep : debtOpening debt0 capex0 projInfo0 2025 5 =
      (debtRowRaw debt0 capex0 projInfo0 2025 (debtOpening debt0 capex0 projInfo0 2025 4)
        4).2.2.2 := rfl
  rw [hstep, sc1_open4]
  unfold debtRowRaw debtDrawdownAt debtTotal debtTotalCapex allInRate repaymentStartYear
    calculatePmt
  norm_num [debt0, capex0, projInfo0, max_def]

theorem sc1_stored0 :
    (scDebtSched sc1).drawdowns 0 = 1000 ∧
      (scDebtSched sc1).interestExpense 0 = 50 ∧
      (scDebtSched sc1).principalRepayment 0 = 1069/5 ∧
      (scDebtSched sc1).closingBalance 0 = 3931/5 := by
  have h : scDebtSched sc1 = calculateDebt (some debt0) (some capex0) (some projInfo0) 2025 :=
    rfl
  rw [h]
  simp only [calculateDebt]
  rw [show debtOpening debt0 capex0 projInfo0 2025 0 = 0 from rfl, sc1_row0]
  norm_num [quantize2, roundHalfEven]

theorem sc1_closing1 : (scDebtSched sc1).closingBalance 1 = 3084/5 := by
  have h : (scDebtSched sc1).closingBalance 1 =
      quantize2 (debtOpening debt0 capex0 projInfo0 2025 2) := rfl
  rw [h, sc1_open2]
  norm_num [quantize2, roundHalfEven]

theorem sc1_closing2 : (scDebtSched sc1).closingBalance 2 = 8609/20 := by
  have h : (scDebtSched sc1).closingBalance 2 =
      quantize2 (debtOpening debt0 capex0 projInfo0 2025 3) := rfl
  rw [h, sc1_open3]
  norm_num [quantize2, roundHalfEven]

theorem sc1_closing3 : (scDebtSched sc1).closingBalance 3 = 5637/25 := by
  have h : (scDebtSched sc1).closingBalance 3 =
      quantize2 (debtOpening debt0 capex0 projInfo0 2025 4) := rfl
  rw [h, sc1_open4]
  norm_num [quantize2, roundHalfEven]

theorem sc1_closing4 : (scDebtSched sc1).closingBalance 4 = 0 := by
  have h : (scDebtSched sc1).closingBalance 4 =
      quantize2 (debtOpening debt0 capex0 projInfo0 2025 5) := rfl
  rw [h, sc1_open5]
  exact quantize2_zero

theorem sc1_check0 : balanceCheckAt sc1 0 = -50 := by
  rw [balanceCheck_eq_debt]
  rw [show (0:ℕ) + 1 = 1 from rfl, Finset.sum_range_one]
  rw [sc1_stored0.1, sc1_stored0.2.1, sc1_stored0.2.2.1, sc1_stored0.2.2.2]
  norm_num

/-! ## C1, C2, C3 -/

/-- C1: the balance invariant fails on the code.  On `sc1` (a single 1000
drawdown at a 10% flat rate, everything else zero) the stored
`Balance Check (should be 0)` line is `-50` in the very first period —
exactly minus the interest expense, which `_build_cash_flow_statement`
deducts again even though `Net Income` already includes it — far outside the
0.01 tolerance. -/
theorem balance_invariant_violated :
    balanceCheckAt sc1 0 = -50 ∧ ¬(|balanceCheckAt sc1 0| ≤ 1/100) := by
  refine ⟨sc1_check0, ?_⟩
  rw [sc1_check0]
  norm_num

/-- C2 counterexample: on `sc1` the balance check is `-50`, far beyond the
0.01 tolerance, yet the run completes with status `success` and the computed
balance-sheet series — including the violated check line — are persisted.  No
`InvariantViolation` abort exists. -/
theorem balance_violation_not_fatal :
    (calculateScenario sc1).status = "success" ∧
      ("Balance Check (should be 0)", balanceCheckAt sc1) ∈
        (calculateScenario sc1).persistedBalanceSheet ∧
      balanceCheckAt sc1 0 = -50 ∧ ¬(|balanceCheckAt sc1 0| ≤ 1/100) := by
  refine ⟨rfl, ?_, sc1_check0, ?_⟩
  · simp [calculateScenario, balanceSheetItems]
  · rw [sc1_check0]; norm_num

/-- C2 amended: the Statement Assembler computes the balance check but never
enforces it; for every fully configured scenario the run completes with
status `success` and the check is merely stored as the balance-sheet line
item `Balance Check (should be 0)`, whatever its magnitude. -/
theorem run_always_succeeds (sc : Scenario) :
    (calculateScenario sc).status = "success" ∧
      ("Balance Check (should be 0)", balanceCheckAt sc) ∈
        (calculateScenario sc).persistedBalanceSheet := by
  refine ⟨rfl, ?_⟩
  simp [calculateScenario, balanceSheetItems]

/-- C3: for the amortizing loan of `sc1` (tenor 5, grace 0, single drawdown
of 1000 in the first period, 10% flat all-in rate) the stored
`Closing Balance` is `0` at the fifth period and non-negative at every
earlier period. -/
theorem debt_closeout :
    (scDebtSched sc1).closingBalance 4 = 0 ∧
      0 ≤ (scDebtSched sc1).closingBalance 0 ∧
      0 ≤ (scDebtSched sc1).closingBalance 1 ∧
      0 ≤ (scDebtSched sc1).closingBalance 2 ∧
      0 ≤ (scDebtSched sc1).closingBalance 3 := by
  refine ⟨sc1_closing4, ?_, ?_, ?_, ?_⟩
  · rw [sc1_stored0.2.2.2]; norm_num
  · rw [sc1_closing1]; norm_num
  · rw [sc1_closing2]; norm_num
  · rw [sc1_closing3]; norm_num

/-! ## C5: the depreciation bound -/

/-- C5 counterexample: for an asset of 0.05 with useful life 3 and no
residual value, the per-period straight-line charge 0.05/3 is quantized up to
0.02, so the cumulative depreciation reaches 0.06 — above the claimed bound
`asset_value * (1 - residual_pct/100) = 0.05`. -/
theorem depreciation_bound_violated :
    cumulativeDepreciation dep5 2025 2025 3 = 3/50 ∧
      ¬(cumulativeDepreciation dep5 2025 2025 3 ≤
          dep5.asset_value * (1 - dep5.residual_value_pct / 100)) := by
  have h : cumulativeDepreciation dep5 2025 2025 3 = 3/50 := by
    unfold cumulativeDepreciation
    rw [Finset.sum_range_succ, Finset.sum_range_succ, Finset.sum_range_one]
    unfold depreciationAt
    norm_num [dep5, quantize2, roundHalfEven]
  refine ⟨h, ?_⟩
  rw [h]
  norm_num [dep5]

/-- C5 amended: cumulative depreciation for an asset category never exceeds
`asset_value * (1 - residual_pct/100)` plus `useful_life_years * 0.005` — the
annual charge is stored quantized to 2 decimals (half-even), which can round
it up by at most half a cent per charged period; the unquantized bound itself
can be exceeded (see the counterexample). -/
theorem cumulativeDepreciation_bounded (s : DepreciationSchedule) (ops_start base : ℤ)
    (n : ℕ) (hl : 0 < s.useful_life_years) (hv : 0 ≤ s.asset_value)
    (hr : s.residual_value_pct ≤ 100) :
    cumulativeDepreciation s ops_start base n ≤
      s.asset_value * (1 - s.residual_value_pct / 100) +
        (s.useful_life_years : ℚ) * (1/200) := by
  have hlq : (0:ℚ) < (s.useful_life_years : ℚ) := by exact_mod_cast hl
  have hB0 : 0 ≤ s.asset_value * (1 - s.residual_value_pct / 100) :=
    mul_nonneg hv (by linarith)
  have hA0 : 0 ≤ s.asset_value * (1 - s.residual_value_pct / 100) / (s.useful_life_years : ℚ) :=
    div_nonneg hB0 hlq.le
  have hq0 : 0 ≤ quantize2
      (s.asset_value * (1 - s.residual_value_pct / 100) / (s.useful_life_years : ℚ)) :=
    quantize2_nonneg _ hA0
  have hqle : quantize2
      (s.asset_value * (1 - s.residual_value_pct / 100) / (s.useful_life_years : ℚ)) ≤
      s.asset_value * (1 - s.residual_value_pct / 100) / (s.useful_life_years : ℚ) + 1/200 :=
    quantize2_le_add _
  have hpt : ∀ i : ℕ, depreciationAt s ops_start (base + i) =
      if ops_start ≤ base + (i:ℤ) ∧ base + (i:ℤ) - ops_start < s.useful_life_years then
        quantize2 (s.asset_value * (1 - s.residual_value_pct / 100) / (s.useful_life_years : ℚ))
      else 0 := by
    intro i
    unfold depreciationAt
    rw [if_neg hl.ne']
    dsimp only
    by_cases h1 : ops_start ≤ base + (i:ℤ)
    · by_cases h2 : base + (i:ℤ) - ops_start < s.useful_life_years
      · rw [if_pos h1, if_pos h2, if_pos ⟨h1, h2⟩]
      · rw [if_pos h1, if_neg h2, if_neg (by tauto)]
    · rw [if_neg h1, if_neg (by tauto)]
  unfold cumulativeDepreciation
  rw [Finset.sum_congr rfl (fun i _ => hpt i), Finset.sum_ite, Finset.sum_const,
    Finset.sum_const_zero, add_zero, nsmul_eq_mul]
  have hcard : ((Finset.range n).filter
      (fun i : ℕ => ops_start ≤ base + (i:ℤ) ∧
        base + (i:ℤ) - ops_start < s.useful_life_years)).card ≤
      s.useful_life_years.toNat := by
    classical
    have hmaps : ∀ i ∈ (Finset.range n).filter
        (fun i : ℕ => ops_start ≤ base + (i:ℤ) ∧
          base + (i:ℤ) - ops_start < s.useful_life_years),
        base + (i:ℤ) ∈ Finset.Ico ops_start (ops_start + s.useful_life_years) := by
      intro i hi
      have h2 := (Finset.mem_filter.mp hi).2
      simp only at h2
      rw [Finset.mem_Ico]
      omega
    have hinj : Set.InjOn (fun i : ℕ => base + (i:ℤ))
        ((Finset.range n).filter
          (fun i : ℕ => ops_start ≤ base + (i:ℤ) ∧
            base + (i:ℤ) - ops_start < s.useful_life_years)) := by
      intro a _ b _ hab
      simp only at hab
      omega
    have := Finset.card_le_card_of_injOn (fun i : ℕ => base + (i:ℤ)) hmaps hinj
    simpa [Int.card_Ico] using this
  have hLcast : ((s.useful_life_years.toNat : ℕ) : ℚ) = (s.useful_life_years : ℚ) := by
    rw [← Int.cast_natCast, Int.toNat_of_nonneg hl.le]
  have hstep1 : ((((Finset.range n).filter
      (fun i : ℕ => ops_start ≤ base + (i:ℤ) ∧
        base + (i:ℤ) - ops_start < s.useful_life_years)).card : ℕ) : ℚ) ≤
      (s.useful_life_years : ℚ) := by
    rw [← hLcast]
    exact_mod_cast hcard
  have hmul := mul_le_mul hstep1 hqle hq0 (le_of_lt hlq)
  refine hmul.trans (le_of_eq ?_)
  field_simp
  ring

/-- C5 witness: the amended bound instantiated for an asset of 100 with a
2-year life over 5 periods. -/
theorem cumulativeDepreciation_bounded_witness :
    ((0:ℤ) < dep8.useful_life_years ∧ (0:ℚ) ≤ dep8.asset_value ∧
        dep8.residual_value_pct ≤ 100) ∧
      cumulativeDepreciation dep8 2025 2025 5 ≤
        dep8.asset_value * (1 - dep8.residual_value_pct / 100) +
          (dep8.useful_life_years : ℚ) * (1/200) :=
  ⟨⟨by norm_num [dep8], by norm_num [dep8], by norm_num [dep8]⟩,
    cumulativeDepreciation_bounded dep8 2025 2025 5 (by norm_num [dep8])
      (by norm_num [dep8]) (by norm_num [dep8])⟩

/-! ## C8: zero-growth constancy -/

/-- C8 counterexample: depreciation is not constant across periods even with
every growth and escalation rate zero — for an asset of 100 with a 2-year
useful life starting in 2025, the scheduled series is 50, 50, 0, so the value
at the third period differs from the first-period value (and from the value
at the first period after ramp-up). -/
theorem zero_growth_not_constant :
    depreciationAt dep8 2025 2025 = 50 ∧ depreciationAt dep8 2025 2026 = 50 ∧
      depreciationAt dep8 2025 2027 = 0 := by
  unfold depreciationAt
  norm_num [dep8, quantize2, roundHalfEven]

/-- C8 amended: with all growth and escalation rates zero, every revenue
product series is constant from period index 1 on (the ramp-up factor can only
affect index 0), every opex category series equals its
first-period value at every index, and every depreciation category series is
constant across the periods inside its depreciation window (at or after
operations start and within the useful life) and zero outside that window. -/
theorem zero_growth_constancy :
    (∀ (p : RevenueProduct) (i j : ℕ), p.volume_growth_rate.getD 0 = 0 →
        p.price_escalation_rate.getD 0 = 0 → 1 ≤ i → 1 ≤ j →
        revenueAt p i = revenueAt p j) ∧
      (∀ (o : OperatingExpenses) (i : ℕ), o.salary_escalation_rate = 0 →
        staffCostsAt o i = staffCostsAt o 0) ∧
      (∀ (o : OperatingExpenses) (i : ℕ), o.utilities_escalation_rate = 0 →
        utilitiesAt o i = utilitiesAt o 0) ∧
      (∀ (o : OperatingExpenses) (m : MacroAssumptions) (i : ℕ),
        m.local_inflation_rate = 0 → otherOpexAt o m i = otherOpexAt o m 0) ∧
      (∀ (o : OperatingExpenses) (m : MacroAssumptions) (i : ℕ),
        m.local_inflation_rate = 0 → insuranceAt o m i = insuranceAt o m 0) ∧
      (∀ (s : DepreciationSchedule) (ops y y' : ℤ),
        ops ≤ y → y - ops < s.useful_life_years →
        ops ≤ y' → y' - ops < s.useful_life_years →
        depreciationAt s ops y = depreciationAt s ops y') ∧
      (∀ (s : DepreciationSchedule) (ops y : ℤ),
        ¬(ops ≤ y ∧ y - ops < s.useful_life_years) → depreciationAt s ops y = 0) := by
  refine ⟨?_, ?_, ?_, ?_, ?_, ?_, ?_⟩
  · intro p i j h1 h2 hi hj
    have hi0 : i ≠ 0 := by omega
    have hj0 : j ≠ 0 := by omega
    unfold revenueAt
    dsimp only
    rw [h1, h2]
    norm_num [hi0, hj0]
  · intro o i h
    unfold staffCostsAt
    rw [h]
    norm_num
  · intro o i h
    unfold utilitiesAt
    rw [h]
    norm_num
  · intro o m i h
    unfold otherOpexAt
    rw [h]
    norm_num
  · intro o m i h
    unfold insuranceAt
    rw [h]
    norm_num
  · intro s ops y y' h1 h2 h3 h4
    have hL : ¬ s.useful_life_years = 0 := by omega
    unfold depreciationAt
    rw [if_neg hL, if_neg hL]
    dsimp only
    rw [if_pos h1, if_pos h2, if_pos h3, if_pos h4]
  · intro s ops y h
    unfold depreciationAt
    by_cases hL : s.useful_life_years = 0
    · rw [if_pos hL]
    · rw [if_neg hL]
      dsimp only
      split_ifs with h1 h2
      · exact absurd ⟨h1, h2⟩ h
      · rfl
      · rfl

/-- C8 witness: the amended constancy facts instantiated on concrete zero-rate
inputs. -/
theorem zero_growth_constancy_witness :
    revenueAt prod8 1 = revenueAt prod8 2 ∧
      staffCostsAt opex0 3 = staffCostsAt opex0 0 ∧
      utilitiesAt opex0 2 = utilitiesAt opex0 0 ∧
      otherOpexAt opex0 macro0 2 = otherOpexAt opex0 macro0 0 ∧
      insuranceAt opex0 macro0 2 = insuranceAt opex0 macro0 0 ∧
      depreciationAt dep8 2025 2025 = depreciationAt dep8 2025 2026 ∧
      depreciationAt dep8 2025 2030 = 0 :=
  ⟨zero_growth_constancy.1 prod8 1 2 (by norm_num [prod8]) (by norm_num [prod8])
      (by norm_num) (by norm_num),
    zero_growth_constancy.2.1 opex0 3 (by norm_num [opex0]),
    zero_growth_constancy.2.2.1 opex0 2 (by norm_num [opex0]),
    zero_growth_constancy.2.2.2.1 opex0 macro0 2 (by norm_num [macro0]),
    zero_growth_constancy.2.2.2.2.1 opex0 macro0 2 (by norm_num [macro0]),
    zero_growth_constancy.2.2.2.2.2.1 dep8 2025 2025 2026 (by norm_num) (by norm_num [dep8])
      (by norm_num) (by norm_num [dep8]),
    zero_growth_constancy.2.2.2.2.2.2 dep8 2025 2030 (by norm_num [dep8])⟩
